import Mathlib

/-!
Shallow embedding of three utility modules of the OM1 agent framework:

* `src/providers/conversation_history_manager.py` — a JSON-file backed
  conversation log (`ConversationHistoryManager`);
* `src/actions/gps/connector/fabric.py` — an HTTP JSON-RPC connector that
  shares GPS coordinates (`GPSFabricConnector`);
* `src/simulators/__init__.py` — a reflection-based plugin loader
  (`find_module_with_class`, `get_simulator_class`, `load_simulator`).

Python run-time values (the contents of JSON files, dynamic variables, parsed
HTTP bodies) are embedded as the inductive type `PyVal`.  Python exceptions are
embedded as the type `PyExc`, and code that can raise is modelled in
`Except PyExc`.  Machinery that touches the file system is modelled by passing
the relevant file contents explicitly; clock reads (`datetime.now()`) are
passed as explicit string parameters.
-/

namespace OM1

/-- A Python/JSON run-time value.  Objects are association lists in insertion
order (Python `dict`s preserve insertion order and have unique keys; lookups
below take the first matching key). -/
inductive PyVal where
  | str (s : String)
  | num (n : Int)
  | bool (b : Bool)
  | null
  | arr (xs : List PyVal)
  | obj (kvs : List (String × PyVal))
deriving Repr

/-- A Python exception, restricted to the kinds that the embedded code can
raise or catch. -/
inductive PyExc where
  | valueError (msg : String)
  | importError
  | attributeError
  | keyError
  | typeError
  | timeoutError
  | connectionError
  | httpError (status : Nat)
  | requestError
  | genericError
deriving Repr, DecidableEq

/-- First-match lookup in an association list (Python `dict.__getitem__` /
`dict.get`, and `getattr` on module dicts, over our insertion-ordered
representation). -/
def lookupKey {α : Type} (kvs : List (String × α)) (k : String) : Option α :=
  match kvs with
  | [] => none
  | (k', v) :: rest => if k' = k then some v else lookupKey rest k

/-- Python `k in d` for a dict: key membership. -/
def hasKey (kvs : List (String × PyVal)) (k : String) : Bool :=
  match kvs with
  | [] => false
  | (k', _) :: rest => k' = k || hasKey rest k

/-- Python truthiness (`bool(v)`) of an embedded value: empty containers,
empty strings, zero, `False` and `None` are falsy. -/
def pyTruthy : PyVal → Bool
  | .str s => s ≠ ""
  | .num n => n ≠ 0
  | .bool b => b
  | .null => false
  | .arr xs => !xs.isEmpty
  | .obj kvs => !kvs.isEmpty

/-- Python iteration `for x in v`: lists yield their elements, strings yield
their characters (as one-character strings), dicts yield their keys; numbers,
booleans and `None` are not iterable (`TypeError`). -/
def pyIter : PyVal → Option (List PyVal)
  | .arr xs => some xs
  | .str s => some (s.data.map fun c => .str (String.mk [c]))
  | .obj kvs => some (kvs.map fun kv => .str kv.1)
  | .num _ => none
  | .bool _ => none
  | .null => none

/-- Python slicing `l[start:]` where `start` is the signed index `idx`:
a negative index counts from the end (clamped at 0), a non-negative index
drops that many elements from the front. -/
def pySliceFrom (l : List PyVal) (idx : Int) : List PyVal :=
  if idx < 0 then l.drop (max 0 ((l.length : Int) + idx)).toNat
  else l.drop idx.toNat

/-! ## Conversation history manager

`ConversationHistoryManager` keeps `self.history` (normally a list of message
dicts), a `max_history_size` bound, an `auto_save` flag, and file naming data.
Mutating operations are serialised by a single mutex, so each public method is
embedded as a pure state transformer.  The file system is embedded as a map
from file path to the JSON document last written there (the
write-temp-file-then-rename in `_save_to_file` makes each write atomic, so a
single map update is faithful). -/

/-- The validation predicate of `_load_history`:
`isinstance(msg, dict) and "role" in msg and "content" in msg`. -/
def isValidMsg : PyVal → Bool
  | .obj kvs => hasKey kvs "role" && hasKey kvs "content"
  | _ => false

/-- `ConversationHistoryManager._load_history`, embedded as a function from
the on-disk state of the history file to the final value of `self.history`
(which starts as the empty list, set in `__init__` before the load).

The file parameter is `none` when `self.history_file` does not exist,
`some (.error ())` when the file exists but `json.load` raises
`JSONDecodeError`, and `some (.ok data)` when it parses to `data`.

Exception handling in the source: a `JSONDecodeError` and any other exception
are caught and logged, leaving `self.history` at whatever it held when the
exception was raised.  In particular `self.history = data.get("history", [])`
raises `AttributeError` before assigning when `data` is not a dict, while the
validating list comprehension raises `TypeError` *after* the assignment when
the `history` field is not iterable — in that case `self.history` keeps the
raw non-list value. -/
def loadHistory (file : Option (Except Unit PyVal)) : PyVal :=
  match file with
  | none => .arr []
  | some (.error _) => .arr []
  | some (.ok data) =>
    match data with
    | .obj kvs =>
      let h := (lookupKey kvs "history").getD (.arr [])
      match pyIter h with
      | some items => .arr (items.filter isValidMsg)
      | none => h
    | _ => .arr []

/-- The constructor-relevant state of a `ConversationHistoryManager` right
after `__init__` has run: configuration fields plus the loaded history. -/
structure ManagerInit where
  historyDir : String
  agentName : String
  autoSave : Bool
  maxHistorySize : Nat
  loadedHistory : PyVal
deriving Repr

/-- `ConversationHistoryManager.__init__`: store the configuration, start
with an empty history and run `_load_history` on the agent's history file
(given here as its on-disk state). -/
def mkManager (historyDir agentName : String) (autoSave : Bool)
    (maxHistorySize : Nat) (file : Option (Except Unit PyVal)) : ManagerInit :=
  { historyDir := historyDir
    agentName := agentName
    autoSave := autoSave
    maxHistorySize := maxHistorySize
    loadedHistory := loadHistory file }

/-- The number of messages a loaded history holds (`len(self.history)` when it
is a list; the degenerate non-list case counts as 0 here). -/
def historyCount : PyVal → Nat
  | .arr xs => xs.length
  | _ => 0

/-- Is the in-memory history a Python list at all?  (In particular, the
empty history is the empty list.) -/
def historyIsList : PyVal → Bool
  | .arr _ => true
  | _ => false

/-- The trimming step shared by `add_message` and `import_history`:
`if len(h) > max: h = h[-max:]`.  Note that for `max = 0` the slice `h[-0:]`
is `h[0:]`, the whole list. -/
def trimHistory (h : List PyVal) (maxSize : Nat) : List PyVal :=
  if h.length > maxSize then pySliceFrom h (-(maxSize : Int)) else h

/-- The message record built by `add_message`:
role, content, an ISO timestamp of the call, and `metadata or {}`. -/
def messageRecord (role content now : String)
    (metadata : Option (List (String × PyVal))) : PyVal :=
  .obj [("role", .str role), ("content", .str content),
        ("timestamp", .str now), ("metadata", .obj (metadata.getD []))]

/-- `ConversationHistoryManager.add_message` on the in-memory history:
append the new record, then trim to the last `max_history_size` entries when
the bound is exceeded.  (The auto-save that follows writes the same list to
disk and does not change it.) -/
def addMessage (h : List PyVal) (maxSize : Nat) (role content now : String)
    (metadata : Option (List (String × PyVal))) : List PyVal :=
  trimHistory (h ++ [messageRecord role content now metadata]) maxSize

/-- `ConversationHistoryManager.import_history` on the in-memory history,
given the `history` field of the parsed import file: extend or replace, then
trim. -/
def importHistory (h imported : List PyVal) (maxSize : Nat)
    (append : Bool) : List PyVal :=
  trimHistory (if append then h ++ imported else imported) maxSize

/-- Python subscription `v[k]` with a string key: dict lookup (`KeyError`
when the key is absent), `TypeError` on every other value (strings and lists
reject string indices). -/
def pyGetItem (v : PyVal) (k : String) : Except PyExc PyVal :=
  match v with
  | .obj kvs =>
    match lookupKey kvs k with
    | some x => .ok x
    | none => .error .keyError
  | _ => .error .typeError

/-- Python `==` between an embedded value and a string: `str` compares by
contents, every other type compares unequal (no exception). -/
def pyEqStr (v : PyVal) (s : String) : Bool :=
  match v with
  | .str t => t = s
  | _ => false

/-- The role filter of `get_history`:
`[msg for msg in history if msg["role"] == role_filter]` — the subscription
can raise, so the comprehension is fallible. -/
def filterByRole (h : List PyVal) (r : String) : Except PyExc (List PyVal) :=
  match h with
  | [] => .ok []
  | msg :: rest =>
    match pyGetItem msg "role" with
    | .error e => .error e
    | .ok v =>
      match filterByRole rest r with
      | .error e => .error e
      | .ok tail => if pyEqStr v r then .ok (msg :: tail) else .ok tail

/-- The system filter of `get_formatted_history`:
`[msg for msg in history if msg["role"] != "system"]`. -/
def filterOutSystem (h : List PyVal) : Except PyExc (List PyVal) :=
  match h with
  | [] => .ok []
  | msg :: rest =>
    match pyGetItem msg "role" with
    | .error e => .error e
    | .ok v =>
      match filterOutSystem rest with
      | .error e => .error e
      | .ok tail => if pyEqStr v "system" then .ok tail else .ok (msg :: tail)

/-- The final limiting step shared by `get_history` and
`get_formatted_history`: `if limit: history = history[-limit:]`.
`limit` is falsy when it is `None` or `0`. -/
def applyLimit (h : List PyVal) (limit : Option Int) : List PyVal :=
  match limit with
  | none => h
  | some l => if l = 0 then h else pySliceFrom h (-l)

/-- `ConversationHistoryManager.get_history`: copy, optionally filter by
role (an empty-string filter is falsy and filters nothing), optionally keep
the last `limit` messages. -/
def getHistory (h : List PyVal) (limit : Option Int)
    (roleFilter : Option String) : Except PyExc (List PyVal) :=
  match roleFilter with
  | some r =>
    if r = "" then .ok (applyLimit h limit)
    else
      match filterByRole h r with
      | .error e => .error e
      | .ok h1 => .ok (applyLimit h1 limit)
  | none => .ok (applyLimit h limit)

/-- The formatting step of `get_formatted_history`:
`{"role": msg["role"], "content": msg["content"]}` for each message. -/
def formatMsgs (h : List PyVal) : Except PyExc (List PyVal) :=
  match h with
  | [] => .ok []
  | msg :: rest =>
    match pyGetItem msg "role" with
    | .error e => .error e
    | .ok r =>
      match pyGetItem msg "content" with
      | .error e => .error e
      | .ok c =>
        match formatMsgs rest with
        | .error e => .error e
        | .ok tail => .ok (.obj [("role", r), ("content", c)] :: tail)

/-- `ConversationHistoryManager.get_formatted_history`: copy, optionally
drop system messages, keep the last `limit` messages, then project each
message to its role and content. -/
def getFormattedHistory (h : List PyVal) (limit : Option Int)
    (includeSystem : Bool) : Except PyExc (List PyVal) :=
  match (if includeSystem then Except.ok h else filterOutSystem h) with
  | .error e => .error e
  | .ok h1 => formatMsgs (applyLimit h1 limit)

/-! ### File persistence

`_save_to_file` writes
`{"agent_name": ..., "saved_at": now, "message_count": len, "history": ...}`
to a temporary file and atomically renames it over the target, so the file
system is embedded as a map from path to the document last written. -/

/-- The file system visible to one manager: path ↦ JSON document. -/
def FileSys : Type := String → Option PyVal

/-- The JSON document `_save_to_file` writes for history `h` at time `now`. -/
def saveDoc (agentName now : String) (h : List PyVal) : PyVal :=
  .obj [("agent_name", .str agentName), ("saved_at", .str now),
        ("message_count", .num h.length), ("history", .arr h)]

/-- `_save_to_file`: the write-temp-then-rename collapses to one atomic
update of the target path. -/
def saveToFile (fs : FileSys) (path : String) (doc : PyVal) : FileSys :=
  fun p => if p = path then some doc else fs p

/-- The `history_file` property: `history_dir / f"{agent_name}_history.json"`. -/
def historyFilePath (historyDir agentName : String) : String :=
  historyDir ++ "/" ++ agentName ++ "_history.json"

/-- The backup path built by `clear_history`:
`history_dir / f"{agent_name}_backup_{timestamp}.json"`. -/
def backupFilePath (historyDir agentName ts : String) : String :=
  historyDir ++ "/" ++ agentName ++ "_backup_" ++ ts ++ ".json"

/-- `ConversationHistoryManager.clear_history`: under the lock, write a
timestamped backup of the current history when `save_backup` is set and the
history is non-empty, then empty the in-memory history and persist it to the
agent's history file.  `now` is the ISO timestamp written inside the
documents, `ts` the `%Y%m%d_%H%M%S` timestamp in the backup file name. -/
def clearHistory (historyDir agentName : String) (h : List PyVal)
    (fs : FileSys) (saveBackup : Bool) (now ts : String) :
    List PyVal × FileSys :=
  let fs1 := if saveBackup && !h.isEmpty then
    saveToFile fs (backupFilePath historyDir agentName ts)
      (saveDoc agentName now h)
  else fs
  let fs2 := saveToFile fs1 (historyFilePath historyDir agentName)
    (saveDoc agentName now [])
  ([], fs2)

/-! ## GPS Fabric connector

`GPSFabricConnector.send_coordinates` reads three dynamic variables from the
IO provider, POSTs one JSON-RPC body (through `_send_request`, which retries
up to 3 times on any exception from `requests.post`), and maps every failure
to `False`.  The transport is embedded as a function from attempt number to
either a raised exception or an HTTP response (status code plus a body that
parses to JSON or not); the IO provider is a map from variable name to an
optional value. -/

/-- Does a character list contain `pat` as a contiguous subsequence?
(Python `"Simulator" in s` / substring membership.) -/
def charsStartWith : List Char → List Char → Bool
  | _, [] => true
  | [], _ :: _ => false
  | c :: cs, d :: ds => c = d && charsStartWith cs ds

/-- Substring search on character lists. -/
def charsContain : List Char → List Char → Bool
  | t, pat => charsStartWith t pat ||
    match t with
    | [] => false
    | _ :: rest => charsContain rest pat

/-- Python `k in v` for a string key `k`: key membership for dicts, element
equality for lists, substring test for strings; `TypeError` on numbers,
booleans and `None`. -/
def pyContains (v : PyVal) (k : String) : Except PyExc Bool :=
  match v with
  | .obj kvs => .ok (hasKey kvs k)
  | .arr xs => .ok (xs.any fun x => pyEqStr x k)
  | .str t => .ok (charsContain t.data k.data)
  | .num _ => .error .typeError
  | .bool _ => .error .typeError
  | .null => .error .typeError

/-- Configuration of the connector (`GPSFabricConfig`): endpoint, request
timeout and the `max_retries` field (stored by `__init__` but, as the
theorems below show, never consulted by the retry logic). -/
structure GPSFabricConfig where
  fabricEndpoint : String
  requestTimeout : Int
  maxRetries : Int
deriving Repr, DecidableEq

/-- An HTTP response: status code and the result of `response.json()`
(`.error` when the body is not valid JSON, so `json()` raises `ValueError`). -/
structure HttpResponse where
  status : Nat
  body : Except Unit PyVal

/-- `GPSFabricConnector._send_request` under its `@retry` decorator
(`stop_after_attempt(3)`, `reraise=True`): call `requests.post` up to three
times, returning the first successful response, the number of attempts made,
and — when all three raise — the final exception re-raised.  The attempt
count 3 is the literal in the decorator; the configuration is in scope but
its `max_retries` field is not read. -/
def sendRequestRetry (_cfg : GPSFabricConfig)
    (attempts : Nat → Except PyExc HttpResponse) :
    Except PyExc HttpResponse × Nat :=
  match attempts 0 with
  | .ok r => (.ok r, 1)
  | .error _ =>
    match attempts 1 with
    | .ok r => (.ok r, 2)
    | .error _ =>
      match attempts 2 with
      | .ok r => (.ok r, 3)
      | .error e => (.error e, 3)

/-- `GPSFabricConnector._get_coordinates`: read `latitude`, `longitude` and
`yaw_deg` from the IO provider; `None` when any of the three is missing,
otherwise the coordinates dict. -/
def getCoordinates (env : String → Option PyVal) : Option PyVal :=
  match env "latitude", env "longitude", env "yaw_deg" with
  | some la, some lo, some y =>
    some (.obj [("latitude", la), ("longitude", lo), ("yaw", y)])
  | _, _, _ => none

/-- The JSON-RPC body `_send_request` POSTs. -/
def requestBody (coordinates : PyVal) : PyVal :=
  .obj [("method", .str "omp2p_shareStatus"),
        ("params", .arr [coordinates]),
        ("id", .num 1),
        ("jsonrpc", .str "2.0")]

/-- `requests.Response.raise_for_status`: raise `HTTPError` exactly for
client-error and server-error status codes. -/
def raiseForStatus (r : HttpResponse) : Except PyExc Unit :=
  if 400 ≤ r.status ∧ r.status < 600 then .error (.httpError r.status)
  else .ok ()

/-- The body of the `try` block in `send_coordinates`, given the transport:
send with retry, check the status, parse the body (an unparsable body is
handled by the inner `try` and returns `False`), then inspect the JSON-RPC
result: `True` for a truthy `"result"` field, `False` for an `"error"`
member or any other shape.  Exceptions escape to the caller. -/
def sendTryBody (cfg : GPSFabricConfig)
    (attempts : Nat → Except PyExc HttpResponse) : Except PyExc Bool :=
  match (sendRequestRetry cfg attempts).1 with
  | .error e => .error e
  | .ok response =>
    match raiseForStatus response with
    | .error e => .error e
    | .ok _ =>
      match response.body with
      | .error _ => .ok false
      | .ok result =>
        match pyContains result "result" with
        | .error e => .error e
        | .ok hasResult =>
          if hasResult then
            match pyGetItem result "result" with
            | .error e => .error e
            | .ok v =>
              if pyTruthy v then .ok true
              else
                match pyContains result "error" with
                | .error e => .error e
                | .ok hasErr => if hasErr then .ok false else .ok false
          else
            match pyContains result "error" with
            | .error e => .error e
            | .ok hasErr => if hasErr then .ok false else .ok false

/-- `GPSFabricConnector.send_coordinates`: returns the boolean outcome and,
when a request was issued, the JSON-RPC body that was POSTed.  A missing
coordinate short-circuits to `(false, none)` with no request; every
exception raised inside the `try` block is caught by one of the five
`except` clauses (`Timeout`, `ConnectionError`, `HTTPError`,
`RequestException`, `Exception`) and converted to `False`. -/
def sendCoordinates (cfg : GPSFabricConfig) (env : String → Option PyVal)
    (attempts : Nat → Except PyExc HttpResponse) : Bool × Option PyVal :=
  match getCoordinates env with
  | none => (false, none)
  | some coordinates =>
    match sendTryBody cfg attempts with
    | .ok b => (b, some (requestBody coordinates))
    | .error _ => (false, some (requestBody coordinates))

/-! ## Simulator plugin loader

`simulators/__init__.py` resolves a class name to a plugin module by scanning
`plugins/*.py` for a source line matching the regular expression
`^class\s+NAME\s*\([^)]*Simulator[^)]*\)\s*:` (with `re.MULTILINE`, the class
name `re.escape`d, so matched literally), then imports the module, fetches the
attribute and checks it is a strict subclass of `Simulator`.  The file system
and import machinery are embedded as explicit environment data. -/

/-- Python `\s`: the six ASCII whitespace characters. -/
def isPySpace (c : Char) : Bool :=
  c = ' ' || c = '\t' || c = '\n' || c = '\r' || c = '\x0b' || c = '\x0c'

/-- Regex combinator: `\s*` followed by the continuation `k`, with full
backtracking (the match succeeds if `k` succeeds after consuming any run of
whitespace). -/
def spacesStarThen (k : List Char → Bool) : List Char → Bool
  | [] => k []
  | c :: rest => k (c :: rest) || (isPySpace c && spacesStarThen k rest)

/-- Regex combinator: the literal `lit` followed by the continuation `k`. -/
def litThen (lit : List Char) (k : List Char → Bool) : List Char → Bool
  | cs =>
    match lit, cs with
    | [], _ => k cs
    | _ :: _, [] => false
    | l :: ls, c :: rest => l = c && litThen ls k rest

/-- The tail of the pattern after the opening parenthesis:
`[^)]*Simulator[^)]*\)\s*:` — since `[^)]` excludes `)`, this is exactly
"the segment up to the first `)` contains `Simulator`, and after that `)`
a run of whitespace is followed by `:`". -/
def classPatternParenTail (cs : List Char) : Bool :=
  let seg := cs.takeWhile (fun c => c ≠ ')')
  match cs.dropWhile (fun c => c ≠ ')') with
  | ')' :: rest =>
    charsContain seg "Simulator".data &&
      spacesStarThen (fun cs2 => match cs2 with | ':' :: _ => true | _ => false) rest
  | _ => false

/-- Match the whole pattern `class\s+NAME\s*\(...` at the current position. -/
def matchClassDeclAt (name : List Char) (cs : List Char) : Bool :=
  litThen "class".data
    (fun cs1 =>
      match cs1 with
      | c :: rest =>
        isPySpace c &&
          spacesStarThen
            (litThen name
              (spacesStarThen (fun cs2 =>
                match cs2 with
                | '(' :: r => classPatternParenTail r
                | _ => false)))
            rest
      | [] => false)
    cs

/-- Try the pattern at every position just after a newline (the non-initial
anchors of `re.MULTILINE`'s `^`). -/
def searchAfterNewlines (name : List Char) : List Char → Bool
  | [] => false
  | c :: rest => (c = '\n' && matchClassDeclAt name rest) || searchAfterNewlines name rest

/-- `re.search(rf"^class\s+{name}\s*\([^)]*Simulator[^)]*\)\s*:", content,
re.MULTILINE)` as a boolean. -/
def matchesClassDecl (name content : String) : Bool :=
  matchClassDeclAt name.data content.data || searchAfterNewlines name.data content.data

/-- One entry of the plugins directory: file name, and its contents — `none`
when reading raises (the loop catches the exception and continues). -/
structure PluginFile where
  name : String
  content : Option String

/-- `f.endswith(".py")`. -/
def hasPyExt (s : String) : Bool :=
  charsStartWith s.data.reverse ".py".data.reverse

/-- `plugin_file[:-3]`: the file name with its last three characters
removed. -/
def stripPyExt (s : String) : String :=
  String.mk (s.data.take (s.data.length - 3))

/-- The scanning loop of `find_module_with_class` over the `.py` files. -/
def findInFiles (className : String) : List PluginFile → Option String
  | [] => none
  | f :: rest =>
    match f.content with
    | none => findInFiles className rest
    | some c =>
      if matchesClassDecl className c then some (stripPyExt f.name)
      else findInFiles className rest

/-- `find_module_with_class`: `None` when the plugins directory does not
exist; otherwise scan the `.py` files in directory order and return the first
file (without its `.py` suffix) whose source matches the class pattern,
`None` when no file matches. -/
def find_module_with_class (pluginsDir : Option (List PluginFile))
    (className : String) : Option String :=
  match pluginsDir with
  | none => none
  | some files => findInFiles className (files.filter fun f => hasPyExt f.name)

/-- An attribute of an imported plugin module, as the loader inspects it:
either a class — with flags for `issubclass(·, Simulator)` and for being the
`Simulator` base itself — or a non-class object. -/
inductive PyAttr where
  | pyClass (isSimSubclass : Bool) (isSimulatorBase : Bool)
  | pyNonClass
deriving Repr, DecidableEq

/-- `inspect.isclass(x) and issubclass(x, Simulator) and x != Simulator`. -/
def isValidSimulatorClass : PyAttr → Bool
  | .pyClass sub base => sub && !base
  | .pyNonClass => false

/-- An imported plugin module: its attribute dictionary. -/
structure SimModule where
  attrs : List (String × PyAttr)

/-- The loader's environment: the plugins directory (or `none` when absent)
and the import machinery (`.error` when `importlib.import_module` raises
`ImportError`). -/
structure SimEnv where
  pluginsDir : Option (List PluginFile)
  importMod : String → Except Unit SimModule

/-- The `except ImportError` / `except AttributeError` clauses shared by
`get_simulator_class` and `load_simulator`: convert those two exception
types — and only those — into descriptive `ValueError`s; everything else
(including `ValueError`s raised inside the `try`) passes through. -/
def pluginTryWrap {α : Type} (moduleName className : String)
    (r : Except PyExc α) : Except PyExc α :=
  match r with
  | .error .importError =>
    .error (.valueError ("Could not import simulator module " ++ moduleName))
  | .error .attributeError =>
    .error (.valueError ("Class " ++ className ++ " not found in simulator module " ++ moduleName))
  | x => x

/-- The `try` block of `get_simulator_class`: import the module (raising
`ImportError` on failure), fetch the attribute (`getattr` raising
`AttributeError` when missing), and check it is a strict `Simulator`
subclass, raising `ValueError` otherwise. -/
def getSimulatorTryBody (env : SimEnv) (moduleName className : String) :
    Except PyExc PyAttr :=
  match env.importMod moduleName with
  | .error _ => .error .importError
  | .ok m =>
    match lookupKey m.attrs className with
    | none => .error .attributeError
    | some cls =>
      if isValidSimulatorClass cls then .ok cls
      else .error (.valueError (className ++ " is not a valid Simulator subclass"))

/-- `get_simulator_class`: resolve the module via `find_module_with_class`
(raising `ValueError` when none is found), then run the `try` block with its
exception translation. -/
def get_simulator_class (env : SimEnv) (className : String) :
    Except PyExc PyAttr :=
  match find_module_with_class env.pluginsDir className with
  | none =>
    .error (.valueError ("Class " ++ className ++ " not found in any simulator plugin module"))
  | some moduleName =>
    pluginTryWrap moduleName className (getSimulatorTryBody env moduleName className)

/-- The `try` block of `load_simulator`: same module/attribute/validity
steps (with the lowercase "simulator subclass" message of this function),
then the config-class scan and the two constructor calls, abstracted as the
`instantiation` outcome, whose exceptions propagate into the same `except`
clauses. -/
def loadSimulatorTryBody {α : Type} (env : SimEnv) (moduleName className : String)
    (instantiation : Except PyExc α) : Except PyExc α :=
  match env.importMod moduleName with
  | .error _ => .error .importError
  | .ok m =>
    match lookupKey m.attrs className with
    | none => .error .attributeError
    | some cls =>
      if isValidSimulatorClass cls then instantiation
      else .error (.valueError (className ++ " is not a valid simulator subclass"))

/-- `load_simulator` for a config whose `type` field is `className`:
resolve the module, then run the `try` block with its exception
translation. -/
def load_simulator {α : Type} (env : SimEnv) (className : String)
    (instantiation : Except PyExc α) : Except PyExc α :=
  match find_module_with_class env.pluginsDir className with
  | none =>
    .error (.valueError ("Class " ++ className ++ " not found in any simulator plugin module"))
  | some moduleName =>
    pluginTryWrap moduleName className
      (loadSimulatorTryBody env moduleName className instantiation)

/-- Is an outcome a raised `ValueError`?  (The claims require lookup
failures to surface as `ValueError` and nothing else.) -/
def isValueError {α : Type} : Except PyExc α → Bool
  | .error (.valueError _) => true
  | _ => false

/-! ## Helper lemmas -/

/-- Dropping fewer elements than the list holds preserves the last element. -/
theorem getLast?_drop_of_lt {α : Type} (l : List α) (n : Nat) (h : n < l.length) :
    (l.drop n).getLast? = l.getLast? := by
  induction l generalizing n with
  | nil => simp at h
  | cons a t ih =>
    cases n with
    | zero => simp
    | succ m =>
      simp only [List.drop_succ_cons]
      rw [ih m (by simpa using h)]
      rcases t with _ | _
      · simp at h
      · simp [List.getLast?_cons_cons]

/-- `trimHistory` never moves the most recent message: the last element of
the trimmed list is the last element of the input. -/
theorem trimHistory_getLast? (h : List PyVal) (maxSize : Nat) :
    (trimHistory h maxSize).getLast? = h.getLast? := by
  unfold trimHistory pySliceFrom
  by_cases hlen : h.length > maxSize
  · simp only [hlen, if_true]
    by_cases hz : (-(maxSize : Int)) < 0
    · simp only [hz, if_true]
      apply getLast?_drop_of_lt
      omega
    · have hm : maxSize = 0 := by omega
      simp [hm]
  · simp [hlen]

/-- `trimHistory` returns a suffix of its input of length
`min maxSize (length)` — except when `maxSize = 0`, where the Python slice
`h[-0:]` is the whole list and nothing is trimmed. -/
theorem trimHistory_spec (h : List PyVal) (maxSize : Nat) (hpos : 1 ≤ maxSize) :
    trimHistory h maxSize <:+ h ∧
    (trimHistory h maxSize).length = min maxSize h.length := by
  unfold trimHistory pySliceFrom
  by_cases hlen : h.length > maxSize
  · have hz : (-(maxSize : Int)) < 0 := by omega
    simp only [hlen, if_true, hz]
    constructor
    · exact List.drop_suffix _ _
    · simp only [List.length_drop]
      omega
  · simp only [hlen, if_false]
    exact ⟨List.suffix_refl h, by omega⟩

/-- `formatMsgs` is an element-wise fallible map: on success it preserves
length and commutes with dropping a prefix. -/
theorem formatMsgs_ok (l r : List PyVal) (hfmt : formatMsgs l = .ok r) :
    r.length = l.length ∧ ∀ k, formatMsgs (l.drop k) = .ok (r.drop k) := by
  induction l generalizing r with
  | nil =>
    simp only [formatMsgs, Except.ok.injEq] at hfmt
    subst hfmt
    exact ⟨rfl, fun k => by simp [formatMsgs]⟩
  | cons m rest ih =>
    rw [formatMsgs] at hfmt
    rcases hr : pyGetItem m "role" with e | rv <;> rw [hr] at hfmt
    · simp at hfmt
    rcases hc : pyGetItem m "content" with e | cv <;> rw [hc] at hfmt
    · simp at hfmt
    rcases ht : formatMsgs rest with e | tail <;> rw [ht] at hfmt
    · simp at hfmt
    simp only [Except.ok.injEq] at hfmt
    subst hfmt
    obtain ⟨hlen, hdrop⟩ := ih tail ht
    refine ⟨by simp [hlen], fun k => ?_⟩
    cases k with
    | zero =>
      simp only [List.drop_zero]
      rw [formatMsgs, hr, hc, ht]
    | succ k' => simpa using hdrop k'

/-- The limiting step is the identity for a `0` limit (the Python slice is
never taken because `0` is falsy). -/
theorem applyLimit_zero (l : List PyVal) : applyLimit l (some 0) = l := by
  simp [applyLimit]

/-- For a positive limit `n`, the limiting step keeps exactly the last
`min n (length)` elements. -/
theorem applyLimit_pos (l : List PyVal) (n : Int) (hn : 0 < n) :
    applyLimit l (some n) = l.drop (l.length - n.toNat) := by
  unfold applyLimit pySliceFrom
  have hne : ¬ (n = 0) := by omega
  have hneg : -n < 0 := by omega
  simp only [hne, if_false, hneg, if_true]
  congr 1
  omega

/-- `get_history` factors through its unlimited form. -/
theorem getHistory_eq_map (h : List PyVal) (limit : Option Int)
    (rf : Option String) :
    getHistory h limit rf =
      Except.map (fun l => applyLimit l limit) (getHistory h none rf) := by
  unfold getHistory
  match rf with
  | none => simp [Except.map, applyLimit]
  | some r =>
    by_cases hre : r = ""
    · simp [hre, Except.map, applyLimit]
    · simp only [hre, if_false]
      rcases hf : filterByRole h r with e | h1 <;>
        simp [hf, Except.map, applyLimit]

/-- The backup file name built by `clear_history` can never collide with the
agent's history file: after the shared `dir/agent` prefix one continues with
`_backup_`, the other with `_history.json`. -/
theorem backupFilePath_ne_historyFilePath (historyDir agentName ts : String) :
    backupFilePath historyDir agentName ts ≠ historyFilePath historyDir agentName := by
  intro hval
  unfold backupFilePath historyFilePath at hval
  have hd := congrArg String.data hval
  simp only [String.data_append, List.append_assoc] at hd
  have h3 := List.append_cancel_left (List.append_cancel_left (List.append_cancel_left hd))
  simp at h3

/-- `k in d` agrees with lookup: a key is a member iff looking it up
succeeds. -/
theorem hasKey_eq_isSome (kvs : List (String × PyVal)) (k : String) :
    hasKey kvs k = (lookupKey kvs k).isSome := by
  induction kvs with
  | nil => rfl
  | cons kv rest ih =>
    obtain ⟨k', v⟩ := kv
    by_cases hk : k' = k <;> simp [hasKey, lookupKey, hk, ih]

/-- The `try` block of `send_coordinates` yields `True` exactly on the happy
path: some attempt returns a response whose status is not in the 4xx/5xx
range and whose body parses to a JSON object with a truthy `result` entry. -/
theorem sendTryBody_eq_ok_true_iff (cfg : GPSFabricConfig)
    (attempts : Nat → Except PyExc HttpResponse) :
    sendTryBody cfg attempts = .ok true ↔
      ∃ resp : HttpResponse, (sendRequestRetry cfg attempts).1 = .ok resp ∧
        (resp.status < 400 ∨ 600 ≤ resp.status) ∧
        ∃ kvs : List (String × PyVal), resp.body = .ok (.obj kvs) ∧
          ∃ v : PyVal, lookupKey kvs "result" = some v ∧ pyTruthy v = true := by
  constructor
  · intro h
    unfold sendTryBody at h
    rcases hret : (sendRequestRetry cfg attempts).1 with e | resp <;>
      rw [hret] at h <;> dsimp only at h
    · simp at h
    unfold raiseForStatus at h
    by_cases hst : 400 ≤ resp.status ∧ resp.status < 600
    · rw [if_pos hst] at h
      simp at h
    rw [if_neg hst] at h
    dsimp only at h
    rcases hbody : resp.body with u | j <;> rw [hbody] at h <;> dsimp only at h
    · simp at h
    match j with
    | .num _ | .bool _ | .null => simp [pyContains] at h
    | .str s =>
      simp only [pyContains] at h
      rcases hc : charsContain s.data "result".data <;> rw [hc] at h <;>
        simp [pyGetItem] at h
    | .arr xs =>
      simp only [pyContains] at h
      rcases hc : xs.any (fun x => pyEqStr x "result") <;> rw [hc] at h <;>
        simp [pyGetItem] at h
    | .obj kvs =>
      simp only [pyContains] at h
      rcases hc : hasKey kvs "result" <;> rw [hc] at h
      · simp at h
      simp only [eq_self_iff_true, if_true, pyGetItem] at h
      rcases hlk : lookupKey kvs "result" with _ | v <;> rw [hlk] at h <;>
        dsimp only at h
      · simp at h
      rcases htr : pyTruthy v <;> rw [htr] at h
      · simp at h
      exact ⟨resp, rfl, by omega, kvs, hbody, v, hlk, htr⟩
  · rintro ⟨resp, hret, hst, kvs, hbody, v, hlk, htr⟩
    have hrs : raiseForStatus resp = .ok () := by
      unfold raiseForStatus
      rw [if_neg (by omega)]
    unfold sendTryBody
    rw [hret]
    dsimp only
    rw [hrs]
    dsimp only
    rw [hbody]
    dsimp only
    simp only [pyContains, hasKey_eq_isSome, hlk, Option.isSome_some, if_true,
      pyGetItem, htr]

/-! ## Claim theorems -/

/-- C8: every message record appended by `add_message` has exactly the four
fields `role`, `content`, `timestamp` and `metadata` — in that order and no
others — where `role` and `content` equal the arguments, `timestamp` is the
time of the call, and `metadata` is the supplied dict or the empty dict when
it is `None`; the record is appended, i.e. it is the most recent message of
the updated history. -/
theorem addMessage_record_fields (h : List PyVal) (maxSize : Nat)
    (role content now : String) (metadata : Option (List (String × PyVal))) :
    (addMessage h maxSize role content now metadata).getLast? =
      some (.obj [("role", .str role), ("content", .str content),
                  ("timestamp", .str now), ("metadata", .obj (metadata.getD []))]) := by
  unfold addMessage
  rw [trimHistory_getLast?]
  simp [messageRecord]

/-- C1 (counterexample): the in-memory history can exceed
`max_history_size` right after construction, because `_load_history` does
not trim.  A manager built with `max_history_size = 1` over a history file
holding two valid messages starts with two messages in memory. -/
theorem loadHistory_exceeds_bound :
    historyCount
        (mkManager "conversation_history" "agent" true 1
            (some (.ok (.obj [("history",
              .arr [.obj [("role", .str "user"), ("content", .str "a")],
                    .obj [("role", .str "user"), ("content", .str "b")]])])))).loadedHistory
      = 2 ∧
    (mkManager "conversation_history" "agent" true 1
        (some (.ok (.obj [("history",
          .arr [.obj [("role", .str "user"), ("content", .str "a")],
                .obj [("role", .str "user"), ("content", .str "b")]])])))).maxHistorySize
      = 1 := by
  constructor <;> rfl

/-- C1 (amended): the mutating operations do enforce the bound — for every
positive `max_history_size`, after `add_message` or `import_history` the
history holds at most `max_history_size` messages, trimming keeps exactly
the most recent messages (the result is a suffix of the untrimmed list of
length `min max_history_size (untrimmed length)`), and `clear_history`
leaves the history empty; but `_load_history` performs no trimming, so the
bound can be violated between construction and the first mutation. -/
theorem history_mutations_bounded (h imported : List PyVal) (maxSize : Nat)
    (hpos : 1 ≤ maxSize) (role content now ts historyDir agentName : String)
    (metadata : Option (List (String × PyVal))) (append saveBackup : Bool)
    (fs : FileSys) :
    ((addMessage h maxSize role content now metadata).length ≤ maxSize ∧
      addMessage h maxSize role content now metadata <:+
        h ++ [messageRecord role content now metadata] ∧
      (addMessage h maxSize role content now metadata).length =
        min maxSize (h.length + 1)) ∧
    ((importHistory h imported maxSize append).length ≤ maxSize ∧
      importHistory h imported maxSize append <:+
        (if append then h ++ imported else imported) ∧
      (importHistory h imported maxSize append).length =
        min maxSize (if append then h ++ imported else imported).length) ∧
    (clearHistory historyDir agentName h fs saveBackup now ts).1.length = 0 := by
  refine ⟨?_, ?_, rfl⟩
  · obtain ⟨hsuf, hlen⟩ :=
      trimHistory_spec (h ++ [messageRecord role content now metadata]) maxSize hpos
    refine ⟨?_, hsuf, ?_⟩
    · unfold addMessage
      omega
    · unfold addMessage
      simpa using hlen
  · obtain ⟨hsuf, hlen⟩ :=
      trimHistory_spec (if append then h ++ imported else imported) maxSize hpos
    exact ⟨by unfold importHistory; omega, hsuf, hlen⟩

/-- C1 (witness for the amended theorem). -/
theorem history_mutations_bounded_witness :
    (addMessage [.null] 1 "user" "hi" "t" none).length ≤ 1 := by
  exact (((history_mutations_bounded [.null] [] 1 (by decide) "user" "hi" "t" "ts"
    "d" "a" none false false (fun _ => none)).1).1)

/-- C7: the history loaded on startup is validated — whenever
`_load_history` leaves a list in memory, every retained message is a dict
containing both a `"role"` and a `"content"` key; and when the persisted
file parses to an object whose `history` field is a list, the retained
history is exactly that list with the non-conforming entries dropped (the
load does not fail on them). -/
theorem loadHistory_validates :
    (∀ (file : Option (Except Unit PyVal)) (l : List PyVal),
      loadHistory file = .arr l → ∀ m ∈ l, isValidMsg m = true) ∧
    (∀ (kvs : List (String × PyVal)) (xs : List PyVal),
      lookupKey kvs "history" = some (.arr xs) →
      loadHistory (some (.ok (.obj kvs))) = .arr (xs.filter isValidMsg)) := by
  constructor
  · intro file l hload m hm
    match file with
    | none =>
      simp only [loadHistory, PyVal.arr.injEq] at hload
      subst hload
      simp at hm
    | some (.error _) =>
      simp only [loadHistory, PyVal.arr.injEq] at hload
      subst hload
      simp at hm
    | some (.ok data) =>
      match data with
      | .str _ | .num _ | .bool _ | .null | .arr _ =>
        simp only [loadHistory, PyVal.arr.injEq] at hload
        subst hload
        simp at hm
      | .obj kvs =>
        simp only [loadHistory] at hload
        rcases hh : (lookupKey kvs "history").getD (.arr []) with s | n | b | _ | xs | kvs'
        all_goals rw [hh] at hload
        all_goals simp only [pyIter, PyVal.arr.injEq] at hload
        · subst hload
          exact (List.mem_filter.mp hm).2
        · exact absurd hload (by simp)
        · exact absurd hload (by simp)
        · exact absurd hload (by simp)
        · subst hload
          exact (List.mem_filter.mp hm).2
        · subst hload
          exact (List.mem_filter.mp hm).2
  · intro kvs xs hkv
    simp [loadHistory, hkv, pyIter]

/-- C7 (witness): a file holding one conforming message and one junk entry
loads as the one conforming message. -/
theorem loadHistory_validates_witness :
    isValidMsg (.obj [("role", .str "u"), ("content", .str "c")]) = true ∧
    loadHistory (some (.ok (.obj [("history",
        .arr [.obj [("role", .str "u"), ("content", .str "c")], .num 3])]))) =
      .arr [.obj [("role", .str "u"), ("content", .str "c")]] := by
  constructor
  · exact loadHistory_validates.1
      (some (.ok (.obj [("history",
        .arr [.obj [("role", .str "u"), ("content", .str "c")], .num 3])])))
      [.obj [("role", .str "u"), ("content", .str "c")]]
      (by rfl)
      (.obj [("role", .str "u"), ("content", .str "c")])
      (by simp)
  · exact (loadHistory_validates.2
      [("history", .arr [.obj [("role", .str "u"), ("content", .str "c")], .num 3])]
      [.obj [("role", .str "u"), ("content", .str "c")], .num 3]
      (by rfl)).trans (by rfl)

/-- C5 (code bug): on the failing input — a history file whose JSON parses
to `{"history": 5}` — the load error is caught, but the manager does *not*
degrade to an empty in-memory history: `self.history` has already been
assigned the raw value `5` when the validating comprehension raises
`TypeError`, so after the catch (which logs "Starting with empty history")
the in-memory history is the non-list value `5`. -/
theorem loadHistory_nonlist_not_empty :
    loadHistory (some (.ok (.obj [("history", .num 5)]))) = .num 5 ∧
    historyIsList (loadHistory (some (.ok (.obj [("history", .num 5)])))) = false := by
  constructor <;> rfl

/-- C10: `get_history` and `get_formatted_history` treat `limit=0` as "no
limit" — `0` is falsy, so the slice is skipped and the entire (filtered)
history is returned, not zero messages; for every positive limit `n` they
return exactly the last `min n (length)` matching messages, in original
order (the suffix `drop (length - n)` of the unlimited result). -/
theorem getHistory_limit_semantics (h : List PyVal) (rf : Option String)
    (inclSys : Bool) (fl fg : List PyVal) :
    (getHistory h none rf = .ok fl →
      getHistory h (some 0) rf = .ok fl ∧
      ∀ n : Int, 0 < n →
        getHistory h (some n) rf = .ok (fl.drop (fl.length - n.toNat)) ∧
        (fl.drop (fl.length - n.toNat)).length = min n.toNat fl.length) ∧
    (getFormattedHistory h none inclSys = .ok fg →
      getFormattedHistory h (some 0) inclSys = .ok fg ∧
      ∀ n : Int, 0 < n →
        getFormattedHistory h (some n) inclSys = .ok (fg.drop (fg.length - n.toNat)) ∧
        (fg.drop (fg.length - n.toNat)).length = min n.toNat fg.length) := by
  constructor
  · intro hfl
    constructor
    · have h0 := getHistory_eq_map h (some 0) rf
      rw [hfl] at h0
      simpa [Except.map, applyLimit_zero] using h0
    · intro n hn
      constructor
      · have hp := getHistory_eq_map h (some n) rf
        rw [hfl] at hp
        simpa [Except.map, applyLimit_pos _ n hn] using hp
      · simp only [List.length_drop]
        omega
  · intro hfg
    rw [getFormattedHistory] at hfg
    rcases hfo : (if inclSys then Except.ok h else filterOutSystem h) with e | h1 <;>
      rw [hfo] at hfg
    · simp at hfg
    have hfg1 : formatMsgs h1 = .ok fg := hfg
    obtain ⟨hlen, hdrop⟩ := formatMsgs_ok h1 fg hfg1
    refine ⟨?_, fun n hn => ⟨?_, ?_⟩⟩
    · rw [getFormattedHistory, hfo]
      show formatMsgs (applyLimit h1 (some 0)) = Except.ok fg
      rw [applyLimit_zero]
      exact hfg1
    · rw [getFormattedHistory, hfo]
      show formatMsgs (applyLimit h1 (some n)) = Except.ok (fg.drop (fg.length - n.toNat))
      rw [applyLimit_pos _ n hn, hdrop, hlen]
    · simp only [List.length_drop]
      omega

/-- C10 (witness): a two-message history with a user-role filter — `limit=0`
returns both matching messages, `limit=1` the most recent one. -/
theorem getHistory_limit_semantics_witness :
    getHistory
        [.obj [("role", .str "user"), ("content", .str "a")],
         .obj [("role", .str "system"), ("content", .str "s")],
         .obj [("role", .str "user"), ("content", .str "b")]]
        (some 0) (some "user") =
      .ok [.obj [("role", .str "user"), ("content", .str "a")],
           .obj [("role", .str "user"), ("content", .str "b")]] ∧
    getHistory
        [.obj [("role", .str "user"), ("content", .str "a")],
         .obj [("role", .str "system"), ("content", .str "s")],
         .obj [("role", .str "user"), ("content", .str "b")]]
        (some 1) (some "user") =
      .ok [.obj [("role", .str "user"), ("content", .str "b")]] := by
  have hmain := getHistory_limit_semantics
    [.obj [("role", .str "user"), ("content", .str "a")],
     .obj [("role", .str "system"), ("content", .str "s")],
     .obj [("role", .str "user"), ("content", .str "b")]]
    (some "user") true
    [.obj [("role", .str "user"), ("content", .str "a")],
     .obj [("role", .str "user"), ("content", .str "b")]]
    []
  obtain ⟨hz, hp⟩ := hmain.1 (by rfl)
  exact ⟨hz, ((hp 1 (by decide)).1).trans (by rfl)⟩

/-- C4: `clear_history` performs backup-on-clear.  In every case the
in-memory history becomes empty and the empty history is persisted to the
agent's history file; when `save_backup` is set and the history is
non-empty, the timestamped backup file holds the pre-clear history; and
when the history was empty or `save_backup` is unset, no other file than
the history file is touched (so no backup is written). -/
theorem clearHistory_backup_semantics (historyDir agentName : String)
    (h : List PyVal) (fs : FileSys) (saveBackup : Bool) (now ts : String) :
    (clearHistory historyDir agentName h fs saveBackup now ts).1 = [] ∧
    (clearHistory historyDir agentName h fs saveBackup now ts).2
        (historyFilePath historyDir agentName) = some (saveDoc agentName now []) ∧
    (saveBackup = true → h.isEmpty = false →
      (clearHistory historyDir agentName h fs saveBackup now ts).2
          (backupFilePath historyDir agentName ts) = some (saveDoc agentName now h)) ∧
    ((saveBackup = false ∨ h = []) →
      ∀ p, p ≠ historyFilePath historyDir agentName →
        (clearHistory historyDir agentName h fs saveBackup now ts).2 p = fs p) := by
  refine ⟨rfl, ?_, ?_, ?_⟩
  · simp [clearHistory, saveToFile]
  · intro hsb hne
    simp only [clearHistory, saveToFile, hsb, hne, Bool.not_false, Bool.and_self, if_true]
    rw [if_neg (backupFilePath_ne_historyFilePath historyDir agentName ts)]
  · intro hcond p hp
    have hoff : (saveBackup && !h.isEmpty) = false := by
      rcases hcond with hsb | hemp
      · simp [hsb]
      · simp [hemp]
    simp only [clearHistory, saveToFile, hoff, Bool.false_eq_true, if_false]
    rw [if_neg hp]

/-- C4 (witness): clearing a one-message history with `save_backup=True`
writes the backup, empties the history file, and leaves unrelated paths
alone when called on an empty history. -/
theorem clearHistory_backup_semantics_witness :
    (clearHistory "d" "a" [.null] (fun _ => none) true "now" "ts").2
        (backupFilePath "d" "a" "ts") = some (saveDoc "a" "now" [.null]) ∧
    (clearHistory "d" "a" [] (fun _ => none) true "now" "ts").2 "d/other.json" = none := by
  constructor
  · exact (clearHistory_backup_semantics "d" "a" [.null] (fun _ => none) true "now" "ts").2.2.1
      rfl rfl
  · exact ((clearHistory_backup_semantics "d" "a" [] (fun _ => none) true "now" "ts").2.2.2
      (Or.inr rfl) "d/other.json" (by decide)).trans rfl

/-- C9: the retry behaviour of `_send_request` is fixed by the literal
`stop_after_attempt(3)` in its decorator: the outcome (and so the attempt
count) is identical for any two configurations — in particular for any two
values of `max_retries` — and on persistent failure (every attempt raises)
exactly 3 POST attempts are made. -/
theorem sendRequestRetry_count_independent (cfg cfg' : GPSFabricConfig)
    (attempts : Nat → Except PyExc HttpResponse) :
    sendRequestRetry cfg attempts = sendRequestRetry cfg' attempts ∧
    ((∀ i, (attempts i).isOk = false) → (sendRequestRetry cfg attempts).2 = 3) := by
  refine ⟨rfl, fun hfail => ?_⟩
  have h0 := hfail 0
  have h1 := hfail 1
  unfold sendRequestRetry
  rcases ha0 : attempts 0 with e0 | r0
  · rcases ha1 : attempts 1 with e1 | r1
    · rcases ha2 : attempts 2 with e2 | r2 <;> rfl
    · rw [ha1] at h1
      simp [Except.isOk, Except.toBool] at h1
  · rw [ha0] at h0
    simp [Except.isOk, Except.toBool] at h0

/-- C9 (witness): with `max_retries` configured as 5 and as 3, a transport
that always times out is attempted exactly 3 times either way. -/
theorem sendRequestRetry_count_independent_witness :
    (sendRequestRetry ⟨"http://localhost:8545", 10, 5⟩
      (fun _ => .error .timeoutError)).2 = 3 :=
  (sendRequestRetry_count_independent ⟨"http://localhost:8545", 10, 5⟩
    ⟨"http://localhost:8545", 10, 3⟩ (fun _ => .error .timeoutError)).2
    (fun _ => rfl)

/-- C3: `send_coordinates` reads exactly the dynamic variables `latitude`,
`longitude` and `yaw_deg`; when any of the three is `None` it returns
`False` without issuing any HTTP request, and otherwise the POSTed body is
the JSON-RPC document with method `omp2p_shareStatus` carrying exactly
those three values. -/
theorem sendCoordinates_reads_three_vars (cfg : GPSFabricConfig)
    (env : String → Option PyVal) (attempts : Nat → Except PyExc HttpResponse) :
    ((env "latitude" = none ∨ env "longitude" = none ∨ env "yaw_deg" = none) →
      sendCoordinates cfg env attempts = (false, none)) ∧
    (∀ la lo y, env "latitude" = some la → env "longitude" = some lo →
      env "yaw_deg" = some y →
      (sendCoordinates cfg env attempts).2 =
        some (.obj [("method", .str "omp2p_shareStatus"),
                    ("params", .arr [.obj [("latitude", la), ("longitude", lo),
                                           ("yaw", y)]]),
                    ("id", .num 1), ("jsonrpc", .str "2.0")])) := by
  constructor
  · intro hmiss
    have hnone : getCoordinates env = none := by
      unfold getCoordinates
      rcases hla : env "latitude" with _ | la <;>
        rcases hlo : env "longitude" with _ | lo <;>
        rcases hy : env "yaw_deg" with _ | y <;>
        simp_all
    unfold sendCoordinates
    rw [hnone]
  · intro la lo y hla hlo hy
    have hsome : getCoordinates env =
        some (.obj [("latitude", la), ("longitude", lo), ("yaw", y)]) := by
      unfold getCoordinates
      rw [hla, hlo, hy]
    unfold sendCoordinates
    rw [hsome]
    rcases htb : sendTryBody cfg attempts with e | b <;> simp [requestBody]

/-- C3 (witness): with all three variables present the body carries them;
with `yaw_deg` absent the call returns `False` with no request. -/
theorem sendCoordinates_reads_three_vars_witness :
    (sendCoordinates ⟨"http://localhost:8545", 10, 3⟩
        (fun n => if n = "latitude" then some (.num 1)
          else if n = "longitude" then some (.num 2)
          else if n = "yaw_deg" then some (.num 3) else none)
        (fun _ => .error .timeoutError)).2 =
      some (.obj [("method", .str "omp2p_shareStatus"),
                  ("params", .arr [.obj [("latitude", .num 1), ("longitude", .num 2),
                                         ("yaw", .num 3)]]),
                  ("id", .num 1), ("jsonrpc", .str "2.0")]) ∧
    sendCoordinates ⟨"http://localhost:8545", 10, 3⟩
        (fun n => if n = "latitude" then some (.num 1)
          else if n = "longitude" then some (.num 2) else none)
        (fun _ => .error .timeoutError) = (false, none) := by
  constructor
  · exact (sendCoordinates_reads_three_vars ⟨"http://localhost:8545", 10, 3⟩
      (fun n => if n = "latitude" then some (.num 1)
        else if n = "longitude" then some (.num 2)
        else if n = "yaw_deg" then some (.num 3) else none)
      (fun _ => .error .timeoutError)).2 (.num 1) (.num 2) (.num 3) rfl rfl rfl
  · exact (sendCoordinates_reads_three_vars ⟨"http://localhost:8545", 10, 3⟩
      (fun n => if n = "latitude" then some (.num 1)
        else if n = "longitude" then some (.num 2) else none)
      (fun _ => .error .timeoutError)).1 (Or.inr (Or.inr rfl))

/-- C2: `send_coordinates` never raises — the result is a total boolean —
and it returns `True` exactly when all three coordinates were available,
the POST produced a response (after retries), the status is not an HTTP
error, and the body parses to a JSON object with a truthy `"result"`
entry.  Every other outcome — a raised network error, an HTTP error status,
an unparsable body, a JSON-RPC `"error"` response or any other response
shape — yields `False`. -/
theorem sendCoordinates_true_iff (cfg : GPSFabricConfig)
    (env : String → Option PyVal) (attempts : Nat → Except PyExc HttpResponse) :
    (sendCoordinates cfg env attempts).1 = true ↔
      ((getCoordinates env).isSome = true ∧
        ∃ resp : HttpResponse, (sendRequestRetry cfg attempts).1 = .ok resp ∧
          (resp.status < 400 ∨ 600 ≤ resp.status) ∧
          ∃ kvs : List (String × PyVal), resp.body = .ok (.obj kvs) ∧
            ∃ v : PyVal, lookupKey kvs "result" = some v ∧ pyTruthy v = true) := by
  unfold sendCoordinates
  rcases hgc : getCoordinates env with _ | coords <;> dsimp only
  · simp [hgc]
  · rcases htb : sendTryBody cfg attempts with e | b <;> dsimp only
    · constructor
      · intro hcontr
        exact absurd hcontr (by simp)
      · rintro ⟨-, hrest⟩
        have hok : sendTryBody cfg attempts = .ok true :=
          (sendTryBody_eq_ok_true_iff cfg attempts).mpr hrest
        rw [htb] at hok
        exact absurd hok (by simp)
    · constructor
      · intro hb
        refine ⟨by simp [hgc], ?_⟩
        have hok : sendTryBody cfg attempts = .ok true := by rw [htb, hb]
        exact (sendTryBody_eq_ok_true_iff cfg attempts).mp hok
      · rintro ⟨-, hrest⟩
        have hok : sendTryBody cfg attempts = .ok true :=
          (sendTryBody_eq_ok_true_iff cfg attempts).mpr hrest
        rw [htb] at hok
        injection hok

/-- When no readable file matches the class pattern, the scan returns
`none` (read errors are skipped, not raised). -/
theorem findInFiles_none_of_no_match (className : String) (files : List PluginFile)
    (hno : ∀ f ∈ files, ∀ c, f.content = some c →
      matchesClassDecl className c = false) :
    findInFiles className files = none := by
  induction files with
  | nil => rfl
  | cons f rest ih =>
    have hrest := ih fun g hg c hc => hno g (List.mem_cons_of_mem f hg) c hc
    unfold findInFiles
    rcases hcon : f.content with _ | c
    · exact hrest
    · dsimp only
      rw [hno f (List.mem_cons_self f rest) c hcon]
      simpa using hrest

/-- C6: plugin lookup failures raise a descriptive `ValueError` — for every
class name, `get_simulator_class` and `load_simulator` end in a raised
`ValueError` (not a normal return, not any other exception type) when the
name is found in no plugin module, when the module import fails, when the
attribute is missing from the imported module, or when the resolved object
is not a strict subclass of `Simulator`; while `find_module_with_class`
itself returns `None` rather than raising when the plugins directory is
missing or no file matches. -/
theorem plugin_lookup_failures_value_error (env : SimEnv) (className : String)
    (instantiation : Except PyExc Unit) :
    (env.pluginsDir = none →
      find_module_with_class env.pluginsDir className = none) ∧
    (∀ files, env.pluginsDir = some files →
      (∀ f ∈ files, ∀ c, f.content = some c →
        matchesClassDecl className c = false) →
      find_module_with_class env.pluginsDir className = none) ∧
    (find_module_with_class env.pluginsDir className = none →
      isValueError (get_simulator_class env className) = true ∧
      isValueError (load_simulator env className instantiation) = true) ∧
    (∀ m, find_module_with_class env.pluginsDir className = some m →
      (env.importMod m = .error () →
        isValueError (get_simulator_class env className) = true ∧
        isValueError (load_simulator env className instantiation) = true) ∧
      (∀ md, env.importMod m = .ok md →
        (lookupKey md.attrs className = none →
          isValueError (get_simulator_class env className) = true ∧
          isValueError (load_simulator env className instantiation) = true) ∧
        (∀ cls, lookupKey md.attrs className = some cls →
          isValidSimulatorClass cls = false →
          isValueError (get_simulator_class env className) = true ∧
          isValueError (load_simulator env className instantiation) = true))) := by
  refine ⟨?_, ?_, ?_, ?_⟩
  · intro hdir
    rw [hdir]
    rfl
  · intro files hdir hno
    rw [hdir]
    unfold find_module_with_class
    exact findInFiles_none_of_no_match className _
      fun f hf c hc => hno f (List.mem_of_mem_filter hf) c hc
  · intro hnone
    unfold get_simulator_class load_simulator
    rw [hnone]
    exact ⟨rfl, rfl⟩
  · intro m hm
    refine ⟨?_, ?_⟩
    · intro himp
      unfold get_simulator_class load_simulator
      rw [hm]
      dsimp only
      unfold pluginTryWrap getSimulatorTryBody loadSimulatorTryBody
      rw [himp]
      exact ⟨rfl, rfl⟩
    · intro md hmd
      refine ⟨?_, ?_⟩
      · intro hlk
        unfold get_simulator_class load_simulator
        rw [hm]
        dsimp only
        unfold pluginTryWrap getSimulatorTryBody loadSimulatorTryBody
        rw [hmd]
        dsimp only
        rw [hlk]
        exact ⟨rfl, rfl⟩
      · intro cls hcls hinvalid
        unfold get_simulator_class load_simulator
        rw [hm]
        dsimp only
        unfold pluginTryWrap getSimulatorTryBody loadSimulatorTryBody
        rw [hmd]
        dsimp only
        rw [hcls]
        dsimp only
        rw [hinvalid]
        exact ⟨rfl, rfl⟩

/-- C6 (witness): a missing plugins directory makes `get_simulator_class`
raise a `ValueError`, and a found-but-invalid class makes `load_simulator`
raise a `ValueError`. -/
theorem plugin_lookup_failures_value_error_witness :
    isValueError (get_simulator_class ⟨none, fun _ => .error ()⟩ "X") = true ∧
    isValueError (load_simulator
      ⟨some [⟨"b.py", some "class X(Simulator):"⟩],
       fun _ => .ok ⟨[("X", .pyNonClass)]⟩⟩ "X" (Except.ok ())) = true := by
  constructor
  · exact ((plugin_lookup_failures_value_error ⟨none, fun _ => .error ()⟩ "X"
      (.ok ())).2.2.1 rfl).1
  · exact ((((plugin_lookup_failures_value_error
      ⟨some [⟨"b.py", some "class X(Simulator):"⟩],
       fun _ => .ok ⟨[("X", .pyNonClass)]⟩⟩ "X" (.ok ())).2.2.2 "b"
      (by rfl)).2 ⟨[("X", .pyNonClass)]⟩ rfl).2 .pyNonClass rfl rfl).2

end OM1
